import Mathlib

/-!
Shallow embedding of the KV Lie Detector web application (`src/app.py`).

The application is a Flask app with three routes.  We embed the two
stateful handlers (`next_question` for `GET /next` and `handle_answer`
for `POST /answer`) as pure Lean functions over an explicit session
store.  Sources of nondeterminism are passed in explicitly:

* the result of `random.sample(QUESTIONS, SESSION_QUESTIONS)` is modelled
  by a list `sel` of distinct positions into the pool (Python's
  `random.sample` draws `k` distinct positions of the population without
  replacement); theorems that rely on the sampling contract take
  `sel.Nodup` and `sel.length = SESSION_QUESTIONS` as hypotheses;
* the outcome of the outbound Groq HTTP call in `ask_groq` is modelled by
  a `GroqOutcome` value: either a successfully extracted completion text,
  or any failure (network error, non-2xx, malformed body, timeout)
  together with the index drawn by `random.choice` for the fallback.

Python exceptions that escape a handler (the `session["questions"][idx]`
lookup with `idx` out of range) are modelled by an `Option`: `none` is an
unhandled fault propagating to the HTTP layer.  Mutation of the shared
`SESSIONS` dict is modelled by explicit state passing of a `Store`.
Python `float` arithmetic in the summary is modelled over `ℚ`, with
`round(x, 1)` modelled as round-half-to-even at one decimal place.
-/

namespace KVLieDetector

/-- Question pool of `app.py` (the `QUESTIONS` list, lines 14-45). -/
def QUESTIONS : List String := [
  "Did you really wake up on time today?",
  "Have you lied to someone recently?",
  "Do you always tell the truth?",
  "Are you hiding anything right now?",
  "Do you think people can tell when you lie?",
  "Would you say you’re confident in your honesty?",
  "Have you ever broken a promise?",
  "Do you trust AI to judge your truthfulness?",
  "Have you ever cheated on a test?",
  "Do you sometimes exaggerate?",
  "Have you lied to a friend before?",
  "Do you hide your feelings often?",
  "Have you ever stolen something?",
  "Do you always keep secrets?",
  "Have you ever lied about your age?",
  "Do you tell white lies often?",
  "Have you ever blamed someone else unfairly?",
  "Do you hide mistakes at work/school?",
  "Have you ever lied to avoid punishment?",
  "Do you sometimes fake interest in conversations?",
  "Do you lie in online profiles?",
  "Have you ever lied in a relationship?",
  "Do you sometimes pretend to know things you don\x27t?",
  "Have you lied to protect someone\x27s feelings?",
  "Do you tell different stories to different people?",
  "Have you ever lied to get out of trouble?",
  "Do you exaggerate your achievements?",
  "Have you lied to get attention?",
  "Do you lie about small things often?",
  "Have you ever faked being sick?"
]

/-- Number of questions per session (`SESSION_QUESTIONS = 30`, line 47). -/
def SESSION_QUESTIONS : Nat := 30

/-- Verdict label used as the truthful tally key (line 134). -/
def truthfulLabel : String := "Truthful ✅"

/-- Verdict label used as the suspicious tally key (line 134). -/
def suspiciousLabel : String := "Suspicious 😶"

/-- Verdict label used as the lying tally key (line 134). -/
def lyingLabel : String := "Lying 🤥"

/-- The three enumerated verdict labels, in the order they appear in the
fallback `random.choice` list of `ask_groq` (line 78). -/
def verdictLabels : List String := [truthfulLabel, suspiciousLabel, lyingLabel]

/-- Python's substring test `needle in haystack` (used by `key in a["verdict"]`
on line 137): the character sequence of `needle` occurs contiguously in
`haystack`. -/
def strContains (haystack needle : String) : Bool :=
  decide (needle.toList <:+: haystack.toList)

/-- Python's `str.strip()` with no argument (line 119 `answer.strip()` and
line 74 `.strip()` on the completion content): remove leading and trailing
whitespace characters. -/
def pyStrip (s : String) : String :=
  ⟨((s.toList.dropWhile Char.isWhitespace).reverse.dropWhile Char.isWhitespace).reverse⟩

/-- Floor of a rational number, computed from numerator and denominator with
floor division. -/
def ratFloor (q : ℚ) : ℤ := Int.fdiv q.num (q.den : ℤ)

/-- Python's `round` to an integer: round half to even (banker's rounding),
modelled on `ℚ`. -/
def roundHalfEven (q : ℚ) : ℤ :=
  if q - ratFloor q < (1 : ℚ) / 2 then ratFloor q
  else if (1 : ℚ) / 2 < q - ratFloor q then ratFloor q + 1
  else if ratFloor q % 2 = 0 then ratFloor q else ratFloor q + 1

/-- Python's `round(x, 1)` (line 140), modelled on `ℚ`: round half to even at
one decimal place. -/
def pyRound1 (q : ℚ) : ℚ := (roundHalfEven (q * 10) : ℚ) / 10

/-- One element of `session["answers"]` (appended on line 126). -/
structure AnswerRecord where
  question : String
  answer : String
  verdict : String
deriving DecidableEq

/-- The final summary computed on completion (lines 134-144): the `counts`
dict keyed by the three labels, plus `honesty_percent`. -/
structure Summary where
  truthfulCount : Nat
  suspiciousCount : Nat
  lyingCount : Nat
  honesty_percent : ℚ
deriving DecidableEq

/-- Tally for one label: how many recorded answers have a verdict containing
the label as a substring (lines 135-138). -/
def countLabel (answers : List AnswerRecord) (label : String) : Nat :=
  answers.countP (fun a => strContains a.verdict label)

/-- Summary computation of `handle_answer` (lines 134-144): per-label counts,
`total = sum(counts.values())`, and
`honesty_percent = round((counts["Truthful ✅"] / total) * 100, 1)` with
fallback `0` when `total == 0`. -/
def computeSummary (answers : List AnswerRecord) : Summary :=
  let t := countLabel answers truthfulLabel
  let s := countLabel answers suspiciousLabel
  let l := countLabel answers lyingLabel
  let total := t + s + l
  let honesty : ℚ := if 0 < total then pyRound1 (((t : ℚ) / (total : ℚ)) * 100) else 0
  ⟨t, s, l, honesty⟩

/-- A session (the dict created on lines 91-95): the sampled questions, the
recorded answers, and the cursor `index`. -/
structure Session where
  questions : List String
  answers : List AnswerRecord
  index : Nat
deriving DecidableEq

/-- The in-memory `SESSIONS` dict keyed by client address (line 48). -/
def Store : Type := String → Option Session

/-- The store at process start: no sessions. -/
def emptyStore : Store := fun _ => none

/-- Dict update `SESSIONS[session_id] = s`. -/
def Store.set (store : Store) (id : String) (s : Session) : Store :=
  fun id' => if id' = id then some s else store id'

/-- Outcome of the outbound HTTP call inside `ask_groq` (lines 70-78):
either the successfully extracted and stripped completion content, or any
exception (network error, non-2xx raised by `raise_for_status`, malformed
JSON body, timeout) together with the index drawn by `random.choice` among
the three fallback labels. -/
inductive GroqOutcome where
  | ok (content : String)
  | fail (choice : Fin 3)
deriving DecidableEq

/-- Embedding of `ask_groq` (lines 50-78): on success return the stripped
completion content; on any failure return `random.choice` of the three
verdict labels.  The function is total: it never raises past this
boundary. -/
def ask_groq (outcome : GroqOutcome) : String :=
  match outcome with
  | .ok content => pyStrip content
  | .fail choice => verdictLabels.get ⟨choice.val, by simp [verdictLabels]⟩

/-- Result served by `GET /next` (`next_question`, lines 98-106): either
just `done: true`, or a question with its 1-based display index and the
total. -/
inductive NextResult where
  | done
  | question (question : String) (index : Nat) (total : Nat)
deriving DecidableEq

/-- Session initialisation (lines 90-95): `questions` is the result of
`random.sample(QUESTIONS, SESSION_QUESTIONS)`, modelled as the positions
`sel` drawn from the pool; `answers` is empty and `index` is `0`. -/
def mkSession (sel : List (Fin QUESTIONS.length)) : Session :=
  { questions := sel.map (fun i => QUESTIONS.get i), answers := [], index := 0 }

/-- Lazy session creation of `next_question` (lines 88-96): if the client
has no session, create one from the sample; otherwise reuse the existing
session unchanged. -/
def get_or_create (store : Store) (id : String) (sel : List (Fin QUESTIONS.length)) :
    Session × Store :=
  match store id with
  | some s => (s, store)
  | none => (mkSession sel, store.set id (mkSession sel))

/-- Embedding of the `GET /next` handler `next_question` (lines 84-106). -/
def next_question (store : Store) (id : String) (sel : List (Fin QUESTIONS.length)) :
    NextResult × Store :=
  let p := get_or_create store id sel
  let session := p.1
  if h : session.index < session.questions.length then
    (.question (session.questions.get ⟨session.index, h⟩) (session.index + 1)
      session.questions.length, p.2)
  else (.done, p.2)

/-- HTTP-visible result of `POST /answer` (lines 108-151): a 400 error body,
or the 200 body with verdict, progress, done flag and optional summary. -/
inductive HandleResult where
  | badRequest (error : String)
  | ok (verdict : String) (progress : Nat) (done : Bool) (summary : Option Summary)
deriving DecidableEq

/-- Full observable outcome of one `POST /answer` request: the HTTP result
(`none` models an unhandled Python exception propagating to the HTTP
layer), the store afterwards, and the list of (question, answer) pairs
sent to the classifier during the request. -/
structure AnswerOutcome where
  result : Option HandleResult
  store : Store
  classifierCalls : List (String × String)

/-- Embedding of the `POST /answer` handler `handle_answer` (lines 108-151).
The request body's `answer` field (defaulted to `""` by
`data.get("answer", "")`) is the `rawAnswer` argument; the classifier
call's outcome is the `outcome` argument.  The `session["questions"][idx]`
lookup is Python list indexing: out of range raises, modelled by the
`none` result with the store unchanged (the exception occurs before any
mutation). -/
def handle_answer (store : Store) (session_id : String) (rawAnswer : String)
    (outcome : GroqOutcome) : AnswerOutcome :=
  match store session_id with
  | none => ⟨some (.badRequest "Session not started"), store, []⟩
  | some session =>
    let idx := session.index
    let answer := pyStrip rawAnswer
    if answer = "" then ⟨some (.badRequest "No answer provided!"), store, []⟩
    else
      match session.questions.get? idx with
      | none => ⟨none, store, []⟩
      | some question =>
        let verdict := ask_groq outcome
        let answers' := session.answers ++ [⟨question, answer, verdict⟩]
        let index' := idx + 1
        let done : Bool := decide (session.questions.length ≤ index')
        let final_summary : Option Summary :=
          if session.questions.length ≤ index' then some (computeSummary answers') else none
        ⟨some (.ok verdict index' done final_summary),
          store.set session_id ⟨session.questions, answers', index'⟩,
          [(question, answer)]⟩

/-- One request at the public HTTP interface, with its nondeterministic
inputs made explicit. -/
inductive Op where
  | next (sel : List (Fin QUESTIONS.length))
  | answer (rawAnswer : String) (outcome : GroqOutcome)

/-- Effect of one public request from client `cid` on the store. -/
def step (store : Store) (cid : String) : Op → Store
  | .next sel => (next_question store cid sel).2
  | .answer raw outcome => (handle_answer store cid raw outcome).store

/-- Store reached after a sequence of public requests from client `cid`. -/
def runTrace (cid : String) (ops : List Op) (store : Store) : Store :=
  ops.foldl (fun st op => step st cid op) store

/-- Honesty formula as the claim words it: denominator is the number of
recorded answers (not the sum of the per-label counts computed by the
code), with fallback `0` when no answers were recorded.  Stated for
comparison with `computeSummary`. -/
def claimedHonesty (answers : List AnswerRecord) : ℚ :=
  if answers.length = 0 then 0
  else pyRound1 (100 * (countLabel answers truthfulLabel : ℚ) / (answers.length : ℚ))

/-! ### Helper lemmas about the three branches of `handle_answer` -/

theorem handle_answer_no_session (store : Store) (cid raw : String) (outcome : GroqOutcome)
    (h : store cid = none) :
    handle_answer store cid raw outcome =
      ⟨some (.badRequest "Session not started"), store, []⟩ := by
  unfold handle_answer
  rw [h]

theorem handle_answer_empty (store : Store) (cid raw : String) (outcome : GroqOutcome)
    (s : Session) (hs : store cid = some s) (he : pyStrip raw = "") :
    handle_answer store cid raw outcome =
      ⟨some (.badRequest "No answer provided!"), store, []⟩ := by
  unfold handle_answer
  rw [hs]
  simp [he]

theorem handle_answer_out_of_range (store : Store) (cid raw : String) (outcome : GroqOutcome)
    (s : Session) (hs : store cid = some s) (he : pyStrip raw ≠ "")
    (h : s.questions.length ≤ s.index) :
    handle_answer store cid raw outcome = ⟨none, store, []⟩ := by
  unfold handle_answer
  rw [hs]
  simp only [he, if_neg, ite_false]
  rw [List.get?_eq_none.2 h]

theorem handle_answer_success (store : Store) (cid raw : String) (outcome : GroqOutcome)
    (s : Session) (hs : store cid = some s) (he : pyStrip raw ≠ "")
    (h : s.index < s.questions.length) :
    handle_answer store cid raw outcome =
      ⟨some (.ok (ask_groq outcome) (s.index + 1)
          (decide (s.questions.length ≤ s.index + 1))
          (if s.questions.length ≤ s.index + 1
           then some (computeSummary (s.answers ++
             [⟨s.questions.get ⟨s.index, h⟩, pyStrip raw, ask_groq outcome⟩]))
           else none)),
        store.set cid ⟨s.questions, s.answers ++
          [⟨s.questions.get ⟨s.index, h⟩, pyStrip raw, ask_groq outcome⟩], s.index + 1⟩,
        [(s.questions.get ⟨s.index, h⟩, pyStrip raw)]⟩ := by
  unfold handle_answer
  rw [hs]
  simp only [he, if_neg, ite_false]
  rw [List.get?_eq_get h]

/-- A demonstration session and store used by witnesses: one client `"c"`
whose session was created from the identity sample. -/
def demoSession : Session := mkSession (List.finRange QUESTIONS.length)

/-- Store holding exactly the demonstration session for client `"c"`. -/
def demoStore : Store := emptyStore.set "c" demoSession

/-! ### Claim theorems -/

/-- C5: submitting an empty or whitespace-only answer to an existing session
returns the 400 error body with message `No answer provided!`, leaves the
store (hence the session's `index` and `answers`) unchanged, and sends
nothing to the classifier, whatever the classifier outcome would have
been. -/
theorem empty_answer_rejected_no_effects (store : Store) (cid raw : String)
    (outcome : GroqOutcome) (s : Session)
    (hs : store cid = some s) (he : pyStrip raw = "") :
    (handle_answer store cid raw outcome).result =
        some (.badRequest "No answer provided!") ∧
    (handle_answer store cid raw outcome).store = store ∧
    (handle_answer store cid raw outcome).classifierCalls = [] := by
  rw [handle_answer_empty store cid raw outcome s hs he]
  exact ⟨rfl, rfl, rfl⟩

theorem empty_answer_rejected_no_effects_witness :
    (handle_answer demoStore "c" " \t " (.ok "x")).result =
        some (.badRequest "No answer provided!") ∧
    (handle_answer demoStore "c" " \t " (.ok "x")).store = demoStore ∧
    (handle_answer demoStore "c" " \t " (.ok "x")).classifierCalls = [] :=
  empty_answer_rejected_no_effects demoStore "c" " \t " (.ok "x") demoSession rfl
    (by decide)

/-- C9: submitting with no existing session yields the 400 error body with
message `Session not started` for every request body — including an empty or
whitespace-only one, so this check precedes the empty-answer check — with
the store unchanged and no classifier call. -/
theorem no_session_rejected_first (store : Store) (cid raw : String)
    (outcome : GroqOutcome) (h : store cid = none) :
    (handle_answer store cid raw outcome).result =
        some (.badRequest "Session not started") ∧
    (handle_answer store cid raw outcome).store = store ∧
    (handle_answer store cid raw outcome).classifierCalls = [] := by
  rw [handle_answer_no_session store cid raw outcome h]
  exact ⟨rfl, rfl, rfl⟩

theorem no_session_rejected_first_witness :
    (handle_answer emptyStore "c" "" (.ok "x")).result =
        some (.badRequest "Session not started") ∧
    (handle_answer emptyStore "c" "" (.ok "x")).store = emptyStore ∧
    (handle_answer emptyStore "c" "" (.ok "x")).classifierCalls = [] :=
  no_session_rejected_first emptyStore "c" "" (.ok "x") rfl

/-- C6: the classifier client never raises past its boundary: it is a total
function into strings; on success it returns the stripped completion text,
and on any failure it returns the label drawn by `random.choice` from the
three enumerated verdict labels.  The draw is a bijection from the three
equiprobable positions onto the three pairwise-distinct labels, so a
uniformly random draw yields a uniformly random label. -/
theorem ask_groq_never_raises :
    (∀ content, ask_groq (.ok content) = pyStrip content) ∧
    (List.finRange 3).map (fun choice => ask_groq (.fail choice)) = verdictLabels ∧
    verdictLabels.Nodup :=
  ⟨fun _ => rfl, by decide, by decide⟩

/-- C7: for a client with an existing session, `next_question` leaves the
store — hence the session's mutable fields — untouched, its result does not
depend on the sampling draw, once `index` has reached the question count it
returns the done signal with no question, and repeated calls return the
same result. -/
theorem next_question_idempotent (store : Store) (cid : String) (s : Session)
    (sel sel' : List (Fin QUESTIONS.length)) (h : store cid = some s) :
    (next_question store cid sel).2 = store ∧
    next_question store cid sel = next_question store cid sel' ∧
    (s.questions.length ≤ s.index → (next_question store cid sel).1 = .done) ∧
    next_question (next_question store cid sel).2 cid sel' =
      next_question store cid sel' := by
  have hg : ∀ sel'', get_or_create store cid sel'' = (s, store) := by
    intro sel''
    unfold get_or_create
    rw [h]
  have h2 : (next_question store cid sel).2 = store := by
    unfold next_question
    rw [hg]
    dsimp only
    split <;> rfl
  refine ⟨h2, ?_, ?_, ?_⟩
  · unfold next_question
    rw [hg, hg]
  · intro hdone
    unfold next_question
    rw [hg]
    dsimp only
    rw [dif_neg (by omega)]
  · rw [h2]

theorem next_question_idempotent_witness :
    (next_question demoStore "c" []).2 = demoStore ∧
    next_question demoStore "c" [] = next_question demoStore "c" [] :=
  ⟨(next_question_idempotent demoStore "c" demoSession [] [] rfl).1,
   (next_question_idempotent demoStore "c" demoSession [] [] rfl).2.1⟩

/-- C8: for a client with no session, `get_or_create` builds one whose
questions are `SESSION_QUESTIONS` pairwise-distinct entries of the pool
(under the `random.sample` contract: the drawn positions are distinct and
number `SESSION_QUESTIONS`), with `answers` empty and `index` zero, stores
it under the client id and touches no other client; for a client that
already has a session it returns that same session and the unchanged
store — it never resamples, whatever the draw. -/
theorem get_or_create_contract (store : Store) (cid : String)
    (sel : List (Fin QUESTIONS.length))
    (hnodup : sel.Nodup) (hlen : sel.length = SESSION_QUESTIONS) :
    (store cid = none →
      (get_or_create store cid sel).1.questions.length = SESSION_QUESTIONS ∧
      (get_or_create store cid sel).1.questions.Nodup ∧
      (∀ q ∈ (get_or_create store cid sel).1.questions, q ∈ QUESTIONS) ∧
      (get_or_create store cid sel).1.answers = [] ∧
      (get_or_create store cid sel).1.index = 0 ∧
      (get_or_create store cid sel).2 cid = some (get_or_create store cid sel).1 ∧
      (∀ id', id' ≠ cid → (get_or_create store cid sel).2 id' = store id')) ∧
    (∀ s, store cid = some s → get_or_create store cid sel = (s, store)) := by
  constructor
  · intro h0
    have hg : get_or_create store cid sel =
        (mkSession sel, store.set cid (mkSession sel)) := by
      unfold get_or_create
      rw [h0]
    rw [hg]
    refine ⟨by simpa [mkSession] using hlen, ?_, ?_, rfl, rfl, ?_, ?_⟩
    · exact hnodup.map (List.nodup_iff_injective_get.1 (by decide))
    · intro q hq
      simp only [mkSession, List.mem_map] at hq
      obtain ⟨i, _, rfl⟩ := hq
      exact List.get_mem QUESTIONS i.1 i.2
    · simp [Store.set]
    · intro id' hne
      simp [Store.set, hne]
  · intro s hs
    unfold get_or_create
    rw [hs]

theorem get_or_create_contract_witness :
    (get_or_create emptyStore "c" (List.finRange QUESTIONS.length)).1.questions.Nodup ∧
    (get_or_create emptyStore "c" (List.finRange QUESTIONS.length)).1.answers = [] ∧
    (get_or_create emptyStore "c" (List.finRange QUESTIONS.length)).1.index = 0 :=
  have h := get_or_create_contract emptyStore "c" (List.finRange QUESTIONS.length)
    (List.nodup_finRange _) (by decide)
  ⟨(h.1 rfl).2.1, (h.1 rfl).2.2.2.1, (h.1 rfl).2.2.2.2.1⟩

/-- C10: the pool has exactly `SESSION_QUESTIONS` entries, so the questions
sequence of a freshly created session is a permutation of the entire pool
(under the `random.sample` contract on the drawn positions): every client
receives the same set of questions, differing only in order. -/
theorem session_questions_perm_pool (store : Store) (cid : String)
    (sel : List (Fin QUESTIONS.length)) (h0 : store cid = none)
    (hnodup : sel.Nodup) (hlen : sel.length = SESSION_QUESTIONS) :
    QUESTIONS.length = SESSION_QUESTIONS ∧
    (get_or_create store cid sel).1.questions.Perm QUESTIONS := by
  refine ⟨by decide, ?_⟩
  have hq : (get_or_create store cid sel).1 = mkSession sel := by
    unfold get_or_create
    rw [h0]
  rw [hq]
  have hsub : List.Subperm sel (List.finRange QUESTIONS.length) :=
    List.subperm_of_subset hnodup (fun i _ => List.mem_finRange i)
  have hperm : sel.Perm (List.finRange QUESTIONS.length) :=
    hsub.perm_of_length_le (by simp only [List.length_finRange, hlen]; decide)
  have h1 : (mkSession sel).questions.Perm
      ((List.finRange QUESTIONS.length).map (fun i => QUESTIONS.get i)) :=
    hperm.map _
  have h2 : (List.finRange QUESTIONS.length).map (fun i => QUESTIONS.get i) = QUESTIONS :=
    List.finRange_map_get QUESTIONS
  rw [h2] at h1
  exact h1

theorem session_questions_perm_pool_witness :
    QUESTIONS.length = SESSION_QUESTIONS ∧
    (get_or_create emptyStore "c" (List.finRange QUESTIONS.length)).1.questions.Perm
      QUESTIONS :=
  session_questions_perm_pool emptyStore "c" (List.finRange QUESTIONS.length) rfl
    (List.nodup_finRange _) (by decide)

/-- Invariant of one session: as many recorded answers as the cursor value,
and the cursor never beyond the question count (`0 ≤ index` holds by the
`Nat` type of the cursor). -/
def SessionInv (s : Session) : Prop :=
  s.answers.length = s.index ∧ s.index ≤ s.questions.length

/-- Invariant of the whole store: every existing session satisfies the
session invariant. -/
def StoreInv (store : Store) : Prop :=
  ∀ id s, store id = some s → SessionInv s

theorem storeInv_of_unchanged (store : Store) (h : StoreInv store) (st : Store)
    (he : st = store) :
    StoreInv st ∧
      ∀ id t t', store id = some t → st id = some t' → t.index ≤ t'.index := by
  subst he
  refine ⟨h, ?_⟩
  intro id t t' h1 h1'
  rw [h1, Option.some.injEq] at h1'
  subst h1'
  exact Nat.le_refl _

theorem Store.set_same (store : Store) (id : String) (s : Session) :
    (store.set id s) id = some s := by
  simp [Store.set]

theorem Store.set_other (store : Store) (id id' : String) (s : Session)
    (h : id' ≠ id) : (store.set id s) id' = store id' := by
  simp [Store.set, h]

theorem storeInv_of_set (store : Store) (h : StoreInv store) (cid : String)
    (snew : Session) (hnew : SessionInv snew)
    (hmono : ∀ t, store cid = some t → t.index ≤ snew.index) :
    StoreInv (store.set cid snew) ∧
      ∀ id t t', store id = some t → (store.set cid snew) id = some t' →
        t.index ≤ t'.index := by
  constructor
  · intro id t hid
    by_cases hi : id = cid
    · subst hi
      rw [Store.set_same, Option.some.injEq] at hid
      subst hid
      exact hnew
    · rw [Store.set_other store cid id snew hi] at hid
      exact h id t hid
  · intro id t t' h1 h1'
    by_cases hi : id = cid
    · subst hi
      rw [Store.set_same, Option.some.injEq] at h1'
      subst h1'
      exact hmono t h1
    · rw [Store.set_other store cid id snew hi, h1, Option.some.injEq] at h1'
      subst h1'
      exact Nat.le_refl _

/-- C3: both public operations — `next_question` and `submit_answer`, whether
they succeed or report an error — preserve the invariants
`len(answers) == index` and `0 <= index <= len(questions)` of every stored
session, and leave no session's cursor smaller than it was (monotone
non-decreasing `index`). -/
theorem session_invariants_preserved (store : Store) (cid : String) (op : Op)
    (h : StoreInv store) :
    StoreInv (step store cid op) ∧
      ∀ id s s', store id = some s → step store cid op id = some s' →
        s.index ≤ s'.index := by
  cases op with
  | next sel =>
    cases hcid : store cid with
    | some s =>
      refine storeInv_of_unchanged store h _ ?_
      show (next_question store cid sel).2 = store
      unfold next_question get_or_create
      rw [hcid]
      dsimp only
      split <;> rfl
    | none =>
      have h2 : step store cid (.next sel) = store.set cid (mkSession sel) := by
        show (next_question store cid sel).2 = _
        unfold next_question get_or_create
        rw [hcid]
        dsimp only
        split <;> rfl
      rw [h2]
      exact storeInv_of_set store h cid (mkSession sel) ⟨rfl, Nat.zero_le _⟩
        (fun t ht => by rw [hcid] at ht; cases ht)
  | answer raw outcome =>
    cases hcid : store cid with
    | none =>
      refine storeInv_of_unchanged store h _ ?_
      show (handle_answer store cid raw outcome).store = store
      rw [handle_answer_no_session store cid raw outcome hcid]
    | some s =>
      by_cases he : pyStrip raw = ""
      · refine storeInv_of_unchanged store h _ ?_
        show (handle_answer store cid raw outcome).store = store
        rw [handle_answer_empty store cid raw outcome s hcid he]
      · by_cases hlt : s.index < s.questions.length
        · have h2 : step store cid (.answer raw outcome) =
              store.set cid ⟨s.questions, s.answers ++
                [⟨s.questions.get ⟨s.index, hlt⟩, pyStrip raw, ask_groq outcome⟩],
                s.index + 1⟩ := by
            show (handle_answer store cid raw outcome).store = _
            rw [handle_answer_success store cid raw outcome s hcid he hlt]
          rw [h2]
          refine storeInv_of_set store h cid _ ?_ ?_
          · obtain ⟨ha, _⟩ := h cid s hcid
            refine ⟨?_, ?_⟩
            · show (s.answers ++ [_]).length = s.index + 1
              simp [ha]
            · show s.index + 1 ≤ s.questions.length
              omega
          · intro t ht
            rw [hcid, Option.some.injEq] at ht
            subst ht
            exact Nat.le_succ _
        · refine storeInv_of_unchanged store h _ ?_
          show (handle_answer store cid raw outcome).store = store
          rw [handle_answer_out_of_range store cid raw outcome s hcid he (by omega)]

theorem session_invariants_preserved_witness :
    StoreInv emptyStore ∧
      StoreInv (step emptyStore "c" (.next (List.finRange QUESTIONS.length))) :=
  have h0 : StoreInv emptyStore := fun _ _ hid => Option.noConfusion hid
  ⟨h0, (session_invariants_preserved emptyStore "c"
    (.next (List.finRange QUESTIONS.length)) h0).1⟩

/-- A request trace that creates a session for client `"c"` and completes it
with 30 answered questions, using only the public interface. -/
def completedOps : List Op :=
  Op.next (List.finRange QUESTIONS.length) ::
    List.replicate 30 (Op.answer "yes" (.ok "fine"))

/-- C2 counterexample: after a session has been completed through the public
interface (one next-question request and 30 successful submissions), one
more non-empty submission reaches the out-of-range
`session["questions"][idx]` lookup: the request produces neither a 200
result nor one of the two 400 errors, but an unhandled fault. -/
theorem submit_after_completion_unhandled_fault :
    (handle_answer (runTrace "c" completedOps emptyStore) "c" "yes"
      (.ok "fine")).result = none := by
  with_unfolding_all decide

/-- C2 (amended): as long as the client's session — if any — is not yet
complete (`index < len(questions)`), `submit_answer` never propagates a
fault to the HTTP layer: it returns the session-not-started 400 error, the
no-answer 400 error, or a 200 result.  The exception the counterexample
forces is a submission after completion, where an index-out-of-range fault
propagates unhandled. -/
theorem submit_answer_total_before_completion (store : Store) (cid raw : String)
    (outcome : GroqOutcome)
    (h : ∀ s, store cid = some s → s.index < s.questions.length) :
    (handle_answer store cid raw outcome).result =
        some (.badRequest "Session not started") ∨
    (handle_answer store cid raw outcome).result =
        some (.badRequest "No answer provided!") ∨
    ∃ v p d sum, (handle_answer store cid raw outcome).result =
        some (.ok v p d sum) := by
  cases hcid : store cid with
  | none =>
    left
    rw [handle_answer_no_session store cid raw outcome hcid]
  | some s =>
    by_cases he : pyStrip raw = ""
    · right
      left
      rw [handle_answer_empty store cid raw outcome s hcid he]
    · right
      right
      rw [handle_answer_success store cid raw outcome s hcid he (h s hcid)]
      exact ⟨_, _, _, _, rfl⟩

theorem submit_answer_total_before_completion_witness :
    (handle_answer demoStore "c" "yes" (.ok "fine")).result =
        some (.badRequest "Session not started") ∨
    (handle_answer demoStore "c" "yes" (.ok "fine")).result =
        some (.badRequest "No answer provided!") ∨
    ∃ v p d sum, (handle_answer demoStore "c" "yes" (.ok "fine")).result =
        some (.ok v p d sum) :=
  submit_answer_total_before_completion demoStore "c" "yes" (.ok "fine")
    (by
      intro s hs
      have h' : some demoSession = some s := hs
      rw [Option.some.injEq] at h'
      subst h'
      decide)

/-- Number of the three enumerated labels occurring as a substring of one
verdict string: each recorded answer contributes this many to the total of
the three per-label counts. -/
def labelHits (v : String) : Nat :=
  (if strContains v truthfulLabel then 1 else 0) +
    (if strContains v suspiciousLabel then 1 else 0) +
    (if strContains v lyingLabel then 1 else 0)

theorem countLabel_sum (answers : List AnswerRecord) :
    countLabel answers truthfulLabel + countLabel answers suspiciousLabel +
      countLabel answers lyingLabel =
      (answers.map (fun a => labelHits a.verdict)).sum := by
  induction answers with
  | nil => rfl
  | cons a as ih =>
    simp only [countLabel, List.countP_cons, List.map_cons, List.sum_cons,
      labelHits] at *
    split_ifs <;> omega

theorem sum_map_ones (l : List AnswerRecord) (f : AnswerRecord → Nat)
    (h : ∀ a ∈ l, f a = 1) : (l.map f).sum = l.length := by
  induction l with
  | nil => rfl
  | cons a as ih =>
    have h1 : f a = 1 := h a (List.mem_cons_self a as)
    have h2 := ih (fun b hb => h b (List.mem_cons_of_mem a hb))
    simp only [List.map_cons, List.sum_cons, List.length_cons, h1, h2]
    omega

/-- A request trace that creates a session for client `"c"` and answers 29
questions, where the classifier each time returned text containing none of
the three labels. -/
def unmatchedOps : List Op :=
  Op.next (List.finRange QUESTIONS.length) ::
    List.replicate 29 (Op.answer "yes" (.ok "???"))

/-- C4 counterexample: the 30th submission does return `done: true` with a
non-null summary, but when no recorded verdict contains any of the three
labels the three counts sum to 0, not 30 — the sum is not 30 regardless of
the verdict strings. -/
theorem summary_counts_sum_cx :
    (handle_answer (runTrace "c" unmatchedOps emptyStore) "c" "yes"
        (.ok "???")).result =
      some (.ok "???" 30 true (some ⟨0, 0, 0, 0⟩)) ∧ 0 + 0 + 0 ≠ 30 := by
  with_unfolding_all decide

/-- C4 (amended): the 30th submission to a session with 30 questions returns
`done: true` with a non-null summary, and the summary's three per-label
counts sum to 30 provided every recorded verdict contains exactly one of
the three labels as a substring.  (The counterexample shows the sum is not
30 for arbitrary verdict strings: a verdict matching no label is dropped
from every bucket, and a verdict containing several labels is counted once
per label.) -/
theorem thirtieth_submission_summary (store : Store) (cid raw : String)
    (outcome : GroqOutcome) (s : Session)
    (hs : store cid = some s) (he : pyStrip raw ≠ "")
    (hq : s.questions.length = 30) (hidx : s.index = 29)
    (hprev : ∀ a ∈ s.answers, labelHits a.verdict = 1)
    (hans : s.answers.length = 29)
    (hnew : labelHits (ask_groq outcome) = 1) :
    ∃ sum : Summary,
      (handle_answer store cid raw outcome).result =
        some (.ok (ask_groq outcome) 30 true (some sum)) ∧
      sum.truthfulCount + sum.suspiciousCount + sum.lyingCount = 30 := by
  have hlt : s.index < s.questions.length := by omega
  have hd : s.questions.length ≤ s.index + 1 := by omega
  rw [handle_answer_success store cid raw outcome s hs he hlt]
  set ans := s.answers ++
    [⟨s.questions.get ⟨s.index, hlt⟩, pyStrip raw, ask_groq outcome⟩] with hansdef
  refine ⟨computeSummary ans, ?_, ?_⟩
  · have hC : decide (s.questions.length ≤ s.index + 1) = true := decide_eq_true hd
    have hD : (if s.questions.length ≤ s.index + 1
        then some (computeSummary ans) else none) = some (computeSummary ans) :=
      if_pos hd
    have hB : s.index + 1 = 30 := by omega
    show some (HandleResult.ok (ask_groq outcome) (s.index + 1)
        (decide (s.questions.length ≤ s.index + 1))
        (if s.questions.length ≤ s.index + 1
         then some (computeSummary ans) else none)) =
      some (HandleResult.ok (ask_groq outcome) 30 true (some (computeSummary ans)))
    rw [hC, hD, hB]
  · have hall : ∀ a ∈ ans, labelHits a.verdict = 1 := by
      intro a ha
      rcases List.mem_append.1 ha with h1 | h2
      · exact hprev a h1
      · rcases List.mem_singleton.1 h2 with rfl
        exact hnew
    have hlen : ans.length = 30 := by
      rw [hansdef]
      simp [hans]
    calc (computeSummary ans).truthfulCount + (computeSummary ans).suspiciousCount +
          (computeSummary ans).lyingCount
        = countLabel ans truthfulLabel + countLabel ans suspiciousLabel +
          countLabel ans lyingLabel := rfl
      _ = (ans.map (fun a => labelHits a.verdict)).sum := countLabel_sum ans
      _ = ans.length := sum_map_ones ans _ hall
      _ = 30 := hlen

/-- A session one answer short of completion whose 29 recorded verdicts each
contain exactly the truthful label, with its one-client store. -/
def almostDoneSession : Session :=
  ⟨QUESTIONS, List.replicate 29 ⟨"q", "a", "Truthful ✅"⟩, 29⟩

/-- Store holding exactly `almostDoneSession` for client `"c"`. -/
def almostDoneStore : Store := emptyStore.set "c" almostDoneSession

theorem thirtieth_submission_summary_witness :
    ∃ sum : Summary,
      (handle_answer almostDoneStore "c" "yes" (.ok "Lying 🤥")).result =
        some (.ok (ask_groq (.ok "Lying 🤥")) 30 true (some sum)) ∧
      sum.truthfulCount + sum.suspiciousCount + sum.lyingCount = 30 :=
  thirtieth_submission_summary almostDoneStore "c" "yes" (.ok "Lying 🤥")
    almostDoneSession rfl (by decide) (by decide) rfl (by decide) (by decide)
    (by decide)

/-- A session one answer short of completion whose 29 recorded verdicts
contain none of the three labels, with its one-client store. -/
def skewSession : Session :=
  ⟨QUESTIONS, List.replicate 29 ⟨"q", "a", "???"⟩, 29⟩

/-- Store holding exactly `skewSession` for client `"c"`. -/
def skewStore : Store := emptyStore.set "c" skewSession

/-- The 30 answers recorded in `skewSession`'s session after its completing
submission with verdict `Truthful ✅`. -/
def skewFinalAnswers : List AnswerRecord :=
  List.replicate 29 ⟨"q", "a", "???"⟩ ++
    [⟨"Have you ever faked being sick?", "a", "Truthful ✅"⟩]

/-- C1 counterexample: completing a session whose first 29 verdicts contain
no label and whose 30th verdict is the truthful label yields
`honesty_percent = 100`: the code divides by the sum of the per-label
counts (here 1), not by the number of recorded answers (here 30), for
which the claimed formula gives `round(100 * 1 / 30, 1) = 3.3`. -/
theorem skew_summary_eval : computeSummary skewFinalAnswers = ⟨1, 0, 0, 100⟩ := by
  with_unfolding_all decide

theorem skew_claimed_eval : claimedHonesty skewFinalAnswers = 33 / 10 := by
  with_unfolding_all decide

theorem hundred_ne_claimed : (100 : ℚ) ≠ 33 / 10 := by
  with_unfolding_all decide

theorem honesty_percent_denominator_cx :
    (handle_answer skewStore "c" "a" (.ok "Truthful ✅")).result =
      some (.ok "Truthful ✅" 30 true (some ⟨1, 0, 0, 100⟩)) ∧
    (handle_answer skewStore "c" "a" (.ok "Truthful ✅")).store "c" =
      some ⟨QUESTIONS, skewFinalAnswers, 30⟩ ∧
    skewFinalAnswers.length = 30 ∧
    claimedHonesty skewFinalAnswers = 33 / 10 ∧
    (100 : ℚ) ≠ 33 / 10 := by
  have h1 : (handle_answer skewStore "c" "a" (.ok "Truthful ✅")).result =
      some (.ok "Truthful ✅" 30 true (some ⟨1, 0, 0, 100⟩)) := by
    have hlt : skewSession.index < skewSession.questions.length := by decide
    rw [handle_answer_success skewStore "c" "a" (.ok "Truthful ✅") skewSession rfl
      (by decide) hlt]
    have e1 : skewSession.answers ++
        [⟨skewSession.questions.get ⟨skewSession.index, hlt⟩, pyStrip "a",
          ask_groq (.ok "Truthful ✅")⟩] = skewFinalAnswers := rfl
    rw [e1, skew_summary_eval]
    exact rfl
  exact ⟨h1, rfl, by decide, skew_claimed_eval, hundred_ne_claimed⟩

/-- C1 (amended): when a submission completes the session, the returned
summary's `honesty_percent` equals `round(100 * truthful_count / total, 1)`
where `total` is the sum of the three per-label counts over the recorded
answers — not the number of recorded answers, from which it differs when a
verdict contains no label or several labels — with fallback `0` when that
sum is `0`. -/
theorem honesty_percent_formula (store : Store) (cid raw : String)
    (outcome : GroqOutcome) (s : Session)
    (hs : store cid = some s) (he : pyStrip raw ≠ "")
    (hc : s.index + 1 = s.questions.length) :
    ∃ ans : List AnswerRecord,
      (handle_answer store cid raw outcome).store cid =
        some ⟨s.questions, ans, s.index + 1⟩ ∧
      ans.length = s.answers.length + 1 ∧
      (handle_answer store cid raw outcome).result =
        some (.ok (ask_groq outcome) (s.index + 1) true
          (some (computeSummary ans))) ∧
      (computeSummary ans).honesty_percent =
        (if countLabel ans truthfulLabel + countLabel ans suspiciousLabel +
            countLabel ans lyingLabel = 0 then (0 : ℚ)
         else pyRound1 (100 * (countLabel ans truthfulLabel : ℚ) /
           ((countLabel ans truthfulLabel + countLabel ans suspiciousLabel +
             countLabel ans lyingLabel : Nat) : ℚ))) := by
  have hlt : s.index < s.questions.length := by omega
  have hd : s.questions.length ≤ s.index + 1 := by omega
  rw [handle_answer_success store cid raw outcome s hs he hlt]
  set ans := s.answers ++
    [⟨s.questions.get ⟨s.index, hlt⟩, pyStrip raw, ask_groq outcome⟩] with hansdef
  refine ⟨ans, ?_, ?_, ?_, ?_⟩
  · exact Store.set_same store cid _
  · rw [hansdef]
    simp
  · have hC : decide (s.questions.length ≤ s.index + 1) = true := decide_eq_true hd
    have hD : (if s.questions.length ≤ s.index + 1
        then some (computeSummary ans) else none) = some (computeSummary ans) :=
      if_pos hd
    show some (HandleResult.ok (ask_groq outcome) (s.index + 1)
        (decide (s.questions.length ≤ s.index + 1))
        (if s.questions.length ≤ s.index + 1
         then some (computeSummary ans) else none)) =
      some (HandleResult.ok (ask_groq outcome) (s.index + 1) true
        (some (computeSummary ans)))
    rw [hC, hD]
  · by_cases h0 : countLabel ans truthfulLabel + countLabel ans suspiciousLabel +
        countLabel ans lyingLabel = 0
    · show (if 0 < countLabel ans truthfulLabel + countLabel ans suspiciousLabel +
          countLabel ans lyingLabel
        then pyRound1 (((countLabel ans truthfulLabel : ℚ) /
          ((countLabel ans truthfulLabel + countLabel ans suspiciousLabel +
            countLabel ans lyingLabel : Nat) : ℚ)) * 100)
        else (0 : ℚ)) = _
      rw [if_neg (by omega), if_pos h0]
    · show (if 0 < countLabel ans truthfulLabel + countLabel ans suspiciousLabel +
          countLabel ans lyingLabel
        then pyRound1 (((countLabel ans truthfulLabel : ℚ) /
          ((countLabel ans truthfulLabel + countLabel ans suspiciousLabel +
            countLabel ans lyingLabel : Nat) : ℚ)) * 100)
        else (0 : ℚ)) = _
      rw [if_pos (by omega), if_neg h0]
      congr 1
      ring

theorem honesty_percent_formula_witness :
    ∃ ans : List AnswerRecord,
      (handle_answer almostDoneStore "c" "yes" (.ok "x")).store "c" =
        some ⟨almostDoneSession.questions, ans, almostDoneSession.index + 1⟩ ∧
      ans.length = almostDoneSession.answers.length + 1 ∧
      (handle_answer almostDoneStore "c" "yes" (.ok "x")).result =
        some (.ok (ask_groq (.ok "x")) (almostDoneSession.index + 1) true
          (some (computeSummary ans))) ∧
      (computeSummary ans).honesty_percent =
        (if countLabel ans truthfulLabel + countLabel ans suspiciousLabel +
            countLabel ans lyingLabel = 0 then (0 : ℚ)
         else pyRound1 (100 * (countLabel ans truthfulLabel : ℚ) /
           ((countLabel ans truthfulLabel + countLabel ans suspiciousLabel +
             countLabel ans lyingLabel : Nat) : ℚ))) :=
  honesty_percent_formula almostDoneStore "c" "yes" (.ok "x") almostDoneSession rfl
    (by decide) (by decide)

end KVLieDetector
